import Mathlib

/-!
Shallow embedding of `app.py` of the Bulk-Email-Sender repository
(subscriber store, recipient resolver, dispatch loop, image inliner),
with theorems settling the specification claims.

Python strings are modelled by Lean `String` (a list of characters);
the ASCII-level behaviour of `str.strip`, `str.lower`, `str.replace`,
`str.split` is reproduced by structural functions below so that every
definition evaluates inside the kernel.  Randomness (`secrets.token_urlsafe`),
the SQLite table, HTTP responses and the SMTP session are passed in
explicitly: the table is a list of rows in id order, the network is a
pair of `Except` values, and the transport is a function argument.
-/

set_option autoImplicit false

namespace BulkEmail

/-! ### Python string primitives -/

/-- `str.strip()` (no argument): drop leading and trailing whitespace. -/
def pyStrip (s : String) : String :=
  String.mk (((s.data.dropWhile Char.isWhitespace).reverse.dropWhile Char.isWhitespace).reverse)

/-- `str.lower()` on the ASCII range (all data in the claims is ASCII). -/
def pyLower (s : String) : String :=
  String.mk (s.data.map Char.toLower)

/-- `raw.replace(";", ",")`: the pattern is a single character, so this is a character map. -/
def pyReplaceSemi (s : String) : String :=
  String.mk (s.data.map (fun c => if c = ';' then ',' else c))

/-- Helper for `pySplit`: accumulates the current piece in reverse. -/
def splitCharAux (sep : Char) (acc : List Char) : List Char → List (List Char)
  | [] => [acc.reverse]
  | c :: rest => if c = sep then acc.reverse :: splitCharAux sep [] rest else splitCharAux sep (c :: acc) rest

/-- `s.split(sep)` for a one-character separator, with Python's semantics
(`"".split(",") = [""]`, `",".split(",") = ["", ""]`). -/
def pySplit (sep : Char) (s : String) : List String :=
  (splitCharAux sep [] s.data).map String.mk

/-- The normalisation `(email or "").strip().lower()` used throughout `app.py`. -/
def pyNorm (s : String) : String :=
  pyLower (pyStrip s)

/-- `a.startswith(b)` on character lists. -/
def chStarts : List Char → List Char → Bool
  | [], _ => true
  | _ :: _, [] => false
  | a :: as, b :: bs => a == b && chStarts as bs

/-- `s.startswith(pre)`. -/
def strStarts (pre s : String) : Bool :=
  chStarts pre.data s.data

/-- Lexicographic comparison on code points, as Python compares `str`. -/
def chLe : List Char → List Char → Bool
  | [], _ => true
  | _ :: _, [] => false
  | a :: as, b :: bs => if a = b then chLe as bs else decide (a < b)

/-- `a <= b` for Python strings. -/
def strLe (a b : String) : Bool :=
  chLe a.data b.data

/-- Insert a string into an already sorted list. -/
def insSorted (x : String) : List String → List String
  | [] => [x]
  | y :: ys => if strLe x y then x :: y :: ys else y :: insSorted x ys

/-- `sorted(recipients)`: the recipient set is duplicate free, so any sort with
the Python string order produces the unique sorted enumeration. -/
def sortStrings : List String → List String
  | [] => []
  | x :: xs => insSorted x (sortStrings xs)

/-! ### base64 and URL encoding -/

/-- The standard base64 alphabet, as used by `base64.b64encode`. -/
def b64char (n : Nat) : Char :=
  "ABCDEFGHIJKLMNOPQRSTUVWXYZabcdefghijklmnopqrstuvwxyz0123456789+/".data.getD n 'A'

/-- `base64.b64encode(bytes).decode("ascii")`. -/
def b64encode : List UInt8 → String
  | [] => ""
  | [a] =>
    let x := a.toNat
    String.mk [b64char (x / 4), b64char ((x % 4) * 16), '=', '=']
  | [a, b] =>
    let x := a.toNat * 256 + b.toNat
    String.mk [b64char (x / 1024), b64char ((x / 16) % 64), b64char ((x % 16) * 4), '=']
  | a :: b :: c :: rest =>
    let x := a.toNat * 65536 + b.toNat * 256 + c.toNat
    String.mk [b64char (x / 262144), b64char ((x / 4096) % 64), b64char ((x / 64) % 64), b64char (x % 64)]
      ++ b64encode rest

/-- Upper-case hexadecimal digit. -/
def hexDigit (n : Nat) : Char :=
  "0123456789ABCDEF".data.getD n '0'

/-- UTF-8 bytes of a character, for percent encoding. -/
def utf8Bytes (c : Char) : List Nat :=
  let n := c.toNat
  if n < 128 then [n]
  else if n < 2048 then [192 + n / 64, 128 + n % 64]
  else if n < 65536 then [224 + n / 4096, 128 + (n / 64) % 64, 128 + n % 64]
  else [240 + n / 262144, 128 + (n / 4096) % 64, 128 + (n / 64) % 64, 128 + n % 64]

/-- `urllib.parse.quote_plus` on one character. -/
def quotePlusChar (c : Char) : List Char :=
  if c.isAlphanum || c = '_' || c = '.' || c = '-' || c = '~' then [c]
  else if c = ' ' then ['+']
  else (utf8Bytes c).foldr (fun b acc => '%' :: hexDigit (b / 16) :: hexDigit (b % 16) :: acc) []

/-- `urlencode({'token': tok})` produces this value. -/
def urlencodeToken (tok : String) : String :=
  "token=" ++ String.mk (tok.data.foldr (fun c acc => quotePlusChar c ++ acc) [])

/-- `build_unsub_link(token)` (app.py line 114): the unsubscribe route is `/unsubscribe`. -/
def build_unsub_link (base_url : String) (token : String) : String :=
  base_url ++ "/unsubscribe?" ++ urlencodeToken token

/-! ### Subscriber store (the `subscribers` table as a list of rows in id order) -/

/-- One row of the `subscribers` table. -/
structure Subscriber where
  id : Nat
  email : String
  name : Option String
  token : String
  status : String
  created_at : Nat
deriving DecidableEq, Repr

/-- Result triple of `upsert_subscriber`: the table afterwards, the `ok` flag,
and the error message, mirroring the Python return pair plus the mutated table. -/
structure UpsertResult where
  db : List Subscriber
  ok : Bool
  err : Option String
deriving DecidableEq, Repr

/-- Effect of `UPDATE subscribers SET status='active' WHERE email=?` on one row. -/
def setActive (e : String) (s : Subscriber) : Subscriber :=
  if s.email == e then { s with status := "active" } else s

/-- Effect of `UPDATE subscribers SET status='unsubscribed' WHERE id=?` on one row. -/
def updId (i : Nat) (s : Subscriber) : Subscriber :=
  if s.id == i then { s with status := "unsubscribed" } else s

/-- `upsert_subscriber(email, name)` (app.py lines 81-95).  The fresh
`secrets.token_urlsafe(24)` value, the AUTOINCREMENT id and the
`CURRENT_TIMESTAMP` are supplied by the caller.  `INSERT OR IGNORE` skips the
insert when the UNIQUE `email` or UNIQUE `token` column would collide; the
subsequent UPDATE sets every row with that email to `active`. -/
def upsert_subscriber (db : List Subscriber) (email : String) (name : Option String)
    (freshToken : String) (nextId : Nat) (now : Nat) : UpsertResult :=
  let e := pyNorm email
  if e = "" then ⟨db, false, some "Email Kosong"⟩
  else
    let db1 := if db.any (fun s => s.email == e || s.token == freshToken) then db
               else db ++ [⟨nextId, e, name, freshToken, "active", now⟩]
    ⟨db1.map (setActive e), true, none⟩

/-- `unsubscribe_by_token(token)` (app.py lines 97-104): find the first row with
this token; if none, return `False` and change nothing; else set that row's
status (by id) to `unsubscribed` and return `True`. -/
def unsubscribe_by_token (db : List Subscriber) (token : String) : List Subscriber × Bool :=
  match db.find? (fun s => s.token == token) with
  | none => (db, false)
  | some row => (db.map (updId row.id), true)

/-- `get_active_emails()` (app.py lines 106-111): rows with status `active`,
`ORDER BY id DESC`; the table list is in ascending id order, so reverse. -/
def get_active_emails (db : List Subscriber) : List Subscriber :=
  (db.filter (fun s => s.status == "active")).reverse

/-! ### Recipient resolution (app.py lines 240-256) -/

/-- `recipients.add(e)` on a Python set, modelled as a duplicate-free list in
insertion order (the order is irrelevant: the loop sorts before use). -/
def addRecipient (acc : List String) (e : String) : List String :=
  if e ∈ acc then acc else acc ++ [e]

/-- Lines 240-244: split the raw text on `,` after turning every `;` into `,`,
strip each piece, drop empties, lowercase, and collect into a set. -/
def resolveManual (raw : String) : List String :=
  (pySplit ',' (pyReplaceSemi raw)).foldl
    (fun acc part =>
      let e := pyStrip part
      if e = "" then acc else addRecipient acc (pyLower e)) []

/-- Lines 246-248: the audience is loaded only when the checkbox is on. -/
def audienceOf (db : List Subscriber) (use_audience : Bool) : List Subscriber :=
  if use_audience then get_active_emails db else []

/-- Line 270: `{row["email"].lower(): row["token"] for row in audience}` —
a later row with the same key would win, hence `getLast?`. -/
def token_map_lookup (audience : List Subscriber) (e : String) : Option String :=
  ((audience.filter (fun row => pyLower row.email == e)).getLast?).map Subscriber.token

/-! ### Transport and dispatch loop (app.py lines 140-142, 269-305) -/

/-- The environment-derived configuration constants `send_route` and
`send_one_email` read. -/
structure Config where
  SMTP_HOST : String
  SMTP_PORT : Nat
  SMTP_USER : String
  SMTP_PASS : String
  SENDER_EMAIL : String
  BASE_URL : String
deriving DecidableEq, Repr

/-- `send_one_email` (app.py lines 140-142 plus the SMTP session): the guard
`if not (SMTP_HOST and SMTP_PORT and SMTP_USER and SMTP_PASS)` raises before
anything is composed or connected; afterwards the outcome is whatever the
SMTP session does, abstracted as the `transport` argument (an `Except.error`
models a raised exception, carrying `str(e)`). -/
def send_one_email (cfg : Config) (transport : String → Except String Unit)
    (to_email : String) : Except String Unit :=
  if cfg.SMTP_HOST ≠ "" ∧ cfg.SMTP_PORT ≠ 0 ∧ cfg.SMTP_USER ≠ "" ∧ cfg.SMTP_PASS ≠ "" then
    transport to_email
  else
    Except.error "Konfigurasi SMTP tidak lengkap: isi SMTP_HOST, SMTP_PORT, SMTP_USER, SMTP_PASS."

/-- One iteration of the dispatch loop records the address it targets and the
token / unsubscribe link it used. -/
structure SendAttempt where
  to_email : String
  token : String
  unsub_link : String
deriving DecidableEq, Repr

/-- Accumulated state of the dispatch loop: `sent_ok`, `sent_fail`, and the
trace of attempts in loop order. -/
structure DispatchResult where
  sent_ok : List String
  sent_fail : List (String × String)
  attempts : List SendAttempt
deriving DecidableEq, Repr

/-- The body of the `for to_email in sorted(recipients)` loop (lines 272-301):
look up or mint the token, build the unsubscribe link, try the send, and
append to `sent_ok` or `sent_fail`. -/
def dispatchStep (cfg : Config) (transport : String → Except String Unit)
    (token_of : String → String) (st : DispatchResult) (to_email : String) : DispatchResult :=
  let token := token_of to_email
  let link := build_unsub_link cfg.BASE_URL token
  let st1 : DispatchResult := { st with attempts := st.attempts ++ [⟨to_email, token, link⟩] }
  match send_one_email cfg transport to_email with
  | Except.ok _ => { st1 with sent_ok := st1.sent_ok ++ [to_email] }
  | Except.error e => { st1 with sent_fail := st1.sent_fail ++ [(to_email, e)] }

/-- The whole dispatch loop over the sorted recipient list. -/
def dispatch (cfg : Config) (transport : String → Except String Unit)
    (token_of : String → String) (recipients : List String) : DispatchResult :=
  recipients.foldl (dispatchStep cfg transport token_of) ⟨[], [], []⟩

/-- Outcome of a `POST /send` request: either a redirect with a flashed error
message, or the success page with the per-recipient report. -/
inductive SendRouteResult where
  | flashError (msg : String)
  | report (r : DispatchResult)
deriving DecidableEq, Repr

/-- `send_route` (app.py lines 224-305).  Form fields arrive raw; `test_email`
is stripped at line 231.  `fresh` models the per-iteration
`secrets.token_urlsafe(16)` of line 273.  The image-inlining side channel
(lines 262-293) only affects the rendered HTML and attachment payload, which
the abstract `transport` consumes; it is modelled separately by
`fetch_image_for_inline`. -/
def send_route (cfg : Config) (db : List Subscriber) (raw_recipients : String)
    (use_audience : Bool) (mode : String) (test_email_raw : String)
    (transport : String → Except String Unit) (fresh : String → String) : SendRouteResult :=
  let test_email := pyStrip test_email_raw
  if cfg.SMTP_PASS = "" then .flashError "Gagal: SMTP_PASS (password email) belum diset."
  else if cfg.SENDER_EMAIL = "" then .flashError "Gagal: SENDER_EMAIL belum diset."
  else
    let audience := audienceOf db use_audience
    let recipients1 := audience.foldl (fun acc row => addRecipient acc (pyLower row.email))
      (resolveManual raw_recipients)
    if mode = "test" ∧ test_email = "" then .flashError "Masukkan alamat 'Test to' dulu."
    else
      let recipients := if mode = "test" then [pyLower test_email] else recipients1
      if recipients = [] then .flashError "Tidak ada penerima."
      else
        .report (dispatch cfg transport
          (fun e => (token_map_lookup audience e).getD (fresh e))
          (sortStrings recipients))

/-! ### Image inliner (app.py lines 125-137) -/

/-- What the model keeps of a `requests` response: status code, the
`Content-Type` header (empty string when absent, as `headers.get(...,"")`),
and the body bytes. -/
structure HttpResponse where
  status_code : Nat
  content_type : String
  content : List UInt8
deriving DecidableEq, Repr

/-- The dict `_fetch_image_for_inline` returns on success. -/
structure InlinePayload where
  content : String
  type : String
  filename : String
deriving DecidableEq, Repr

/-- `_fetch_image_for_inline(url)` (app.py lines 125-137).  The two network
calls are passed in as `Except` values — `Except.error` models a raised
`requests` exception (connection error, timeout), swallowed by the
`try/except` into `None`.  `guess_ext` models the `mimetypes.guess_extension`
table of the host Python. -/
def fetch_image_for_inline (guess_ext : String → Option String)
    (headResp getResp : Except String HttpResponse) : Option InlinePayload :=
  match headResp with
  | Except.error _ => none
  | Except.ok head =>
    if head.status_code = 200 ∧ strStarts "image/" head.content_type then
      match getResp with
      | Except.error _ => none
      | Except.ok g =>
        if g.status_code = 200 ∧ g.content ≠ [] then
          some ⟨b64encode g.content, head.content_type,
            "hero" ++ ((guess_ext ((pySplit ';' head.content_type).headD "")).getD ".jpg")⟩
        else none
    else none

/-! ### Derived notions used by the theorems -/

/-- The attempt one loop iteration makes for address `e`. -/
def mkAttempt (cfg : Config) (token_of : String → String) (e : String) : SendAttempt :=
  ⟨e, token_of e, build_unsub_link cfg.BASE_URL (token_of e)⟩

/-- Number of rows of the table whose email column equals `e`. -/
def countEmail (db : List Subscriber) (e : String) : Nat :=
  db.countP (fun s => s.email == e)

/-- Frame relation: the row kept its id, email, name, token and creation time
(only the status column may differ). -/
def frame (s s' : Subscriber) : Prop :=
  s'.id = s.id ∧ s'.email = s.email ∧ s'.name = s.name ∧ s'.token = s.token ∧
    s'.created_at = s.created_at

end BulkEmail

namespace BulkEmail

/-! ### Helper lemmas -/

theorem mem_addRecipient (acc : List String) (x e : String) :
    e ∈ addRecipient acc x ↔ e ∈ acc ∨ e = x := by
  unfold addRecipient
  split
  · constructor
    · exact Or.inl
    · rintro (he | rfl)
      · exact he
      · assumption
  · simp

theorem nodup_addRecipient (acc : List String) (x : String) (h : acc.Nodup) :
    (addRecipient acc x).Nodup := by
  unfold addRecipient
  split
  · exact h
  · rename_i hx
    simp [List.nodup_append, h, hx]

theorem mem_foldl_addRecipient (f : Subscriber → String) (l : List Subscriber) :
    ∀ (acc : List String) (e : String), e ∈ acc →
      e ∈ l.foldl (fun acc row => addRecipient acc (f row)) acc := by
  induction l with
  | nil => intro acc e he; simpa using he
  | cons row l ih =>
    intro acc e he
    exact ih _ e ((mem_addRecipient acc (f row) e).2 (Or.inl he))

theorem mem_foldl_resolve (l : List String) :
    ∀ (acc : List String) (e : String),
      (e ∈ l.foldl (fun acc part =>
          let x := pyStrip part
          if x = "" then acc else addRecipient acc (pyLower x)) acc ↔
        e ∈ acc ∨ ∃ part ∈ l, pyStrip part ≠ "" ∧ e = pyLower (pyStrip part)) := by
  induction l with
  | nil => intro acc e; simp
  | cons p l ih =>
    intro acc e
    simp only [List.foldl_cons]
    by_cases hp : pyStrip p = ""
    · rw [if_pos hp, ih]
      constructor
      · rintro (he | ⟨part, hpart, hne, rfl⟩)
        · exact Or.inl he
        · exact Or.inr ⟨part, List.mem_cons_of_mem p hpart, hne, rfl⟩
      · rintro (he | ⟨part, hpart, hne, rfl⟩)
        · exact Or.inl he
        · rcases List.mem_cons.1 hpart with rfl | hpart
          · exact absurd hp hne
          · exact Or.inr ⟨part, hpart, hne, rfl⟩
    · rw [if_neg hp, ih]
      constructor
      · rintro (he | ⟨part, hpart, hne, rfl⟩)
        · rcases (mem_addRecipient acc (pyLower (pyStrip p)) _).1 he with he | rfl
          · exact Or.inl he
          · exact Or.inr ⟨p, List.mem_cons_self p l, hp, rfl⟩
        · exact Or.inr ⟨part, List.mem_cons_of_mem p hpart, hne, rfl⟩
      · rintro (he | ⟨part, hpart, hne, rfl⟩)
        · exact Or.inl ((mem_addRecipient acc (pyLower (pyStrip p)) _).2 (Or.inl he))
        · rcases List.mem_cons.1 hpart with rfl | hpart
          · exact Or.inl ((mem_addRecipient acc (pyLower (pyStrip part)) _).2 (Or.inr rfl))
          · exact Or.inr ⟨part, hpart, hne, rfl⟩

theorem mem_resolveManual (raw : String) (e : String) :
    e ∈ resolveManual raw ↔
      ∃ part ∈ pySplit ',' (pyReplaceSemi raw), pyStrip part ≠ "" ∧ e = pyLower (pyStrip part) := by
  unfold resolveManual
  rw [mem_foldl_resolve]
  simp

theorem nodup_foldl_resolve (l : List String) :
    ∀ acc : List String, acc.Nodup →
      (l.foldl (fun acc part =>
        let x := pyStrip part
        if x = "" then acc else addRecipient acc (pyLower x)) acc).Nodup := by
  induction l with
  | nil => intro acc h; simpa using h
  | cons p l ih =>
    intro acc h
    simp only [List.foldl_cons]
    by_cases hp : pyStrip p = ""
    · rw [if_pos hp]
      exact ih acc h
    · rw [if_neg hp]
      exact ih _ (nodup_addRecipient acc (pyLower (pyStrip p)) h)

theorem nodup_resolveManual (raw : String) : (resolveManual raw).Nodup :=
  nodup_foldl_resolve _ [] List.nodup_nil

theorem mem_insSorted (x e : String) (l : List String) :
    e ∈ insSorted x l ↔ e = x ∨ e ∈ l := by
  induction l with
  | nil => simp [insSorted]
  | cons y ys ih =>
    unfold insSorted
    split
    · simp [List.mem_cons]
    · rw [List.mem_cons, ih, List.mem_cons]
      tauto

theorem mem_sortStrings (l : List String) (e : String) :
    e ∈ sortStrings l ↔ e ∈ l := by
  induction l with
  | nil => simp [sortStrings]
  | cons x xs ih =>
    unfold sortStrings
    rw [mem_insSorted, ih, List.mem_cons]

theorem foldl_dispatchStep_attempts (cfg : Config) (transport : String → Except String Unit)
    (token_of : String → String) (rs : List String) :
    ∀ st : DispatchResult,
      (rs.foldl (dispatchStep cfg transport token_of) st).attempts =
        st.attempts ++ rs.map (mkAttempt cfg token_of) := by
  induction rs with
  | nil => intro st; simp
  | cons e rs ih =>
    intro st
    rw [List.foldl_cons, ih]
    have hstep : (dispatchStep cfg transport token_of st e).attempts =
        st.attempts ++ [mkAttempt cfg token_of e] := by
      unfold dispatchStep
      cases h : send_one_email cfg transport e <;> simp [h, mkAttempt]
    rw [hstep, List.append_assoc]
    simp

theorem dispatch_attempts (cfg : Config) (transport : String → Except String Unit)
    (token_of : String → String) (rs : List String) :
    (dispatch cfg transport token_of rs).attempts = rs.map (mkAttempt cfg token_of) := by
  unfold dispatch
  rw [foldl_dispatchStep_attempts]
  rfl

theorem foldl_dispatchStep_err (cfg : Config) (transport : String → Except String Unit)
    (token_of : String → String) :
    ∀ rs : List String, (∀ e ∈ rs, ∃ m, send_one_email cfg transport e = Except.error m) →
      ∀ st : DispatchResult,
        (rs.foldl (dispatchStep cfg transport token_of) st).sent_ok = st.sent_ok ∧
        (rs.foldl (dispatchStep cfg transport token_of) st).sent_fail.map Prod.fst =
          st.sent_fail.map Prod.fst ++ rs := by
  intro rs
  induction rs with
  | nil => intro _ st; simp
  | cons e rs ih =>
    intro h st
    obtain ⟨m, hm⟩ := h e (List.mem_cons_self e rs)
    have h1 : (dispatchStep cfg transport token_of st e).sent_ok = st.sent_ok := by
      unfold dispatchStep
      rw [hm]
    have h2 : (dispatchStep cfg transport token_of st e).sent_fail = st.sent_fail ++ [(e, m)] := by
      unfold dispatchStep
      rw [hm]
    rw [List.foldl_cons]
    obtain ⟨ih1, ih2⟩ := ih (fun x hx => h x (List.mem_cons_of_mem e hx))
      (dispatchStep cfg transport token_of st e)
    refine ⟨by rw [ih1, h1], ?_⟩
    rw [ih2, h2]
    simp

theorem dispatch_all_error (cfg : Config) (transport : String → Except String Unit)
    (token_of : String → String) (rs : List String)
    (h : ∀ e ∈ rs, ∃ m, send_one_email cfg transport e = Except.error m) :
    (dispatch cfg transport token_of rs).sent_ok = [] ∧
    (dispatch cfg transport token_of rs).sent_fail.map Prod.fst = rs := by
  have := foldl_dispatchStep_err cfg transport token_of rs h ⟨[], [], []⟩
  simpa [dispatch] using this

theorem send_route_report (cfg : Config) (db : List Subscriber) (raw : String)
    (use_audience : Bool) (mode test : String) (transport : String → Except String Unit)
    (fresh : String → String) (r : DispatchResult)
    (h : send_route cfg db raw use_audience mode test transport fresh = .report r) :
    ∃ rs, r = dispatch cfg transport
      (fun e => (token_map_lookup (audienceOf db use_audience) e).getD (fresh e)) rs := by
  simp only [send_route] at h
  by_cases h1 : cfg.SMTP_PASS = ""
  · rw [if_pos h1] at h
    exact absurd h (by simp)
  rw [if_neg h1] at h
  by_cases h2 : cfg.SENDER_EMAIL = ""
  · rw [if_pos h2] at h
    exact absurd h (by simp)
  rw [if_neg h2] at h
  by_cases h3 : mode = "test" ∧ pyStrip test = ""
  · rw [if_pos h3] at h
    exact absurd h (by simp)
  rw [if_neg h3] at h
  by_cases h4 : mode = "test"
  · rw [if_pos h4] at h
    split at h
    · exact absurd h (by simp)
    · injection h with h
      exact ⟨_, h.symm⟩
  · rw [if_neg h4] at h
    split at h
    · exact absurd h (by simp)
    · injection h with h
      exact ⟨_, h.symm⟩

theorem setActive_email (e : String) (s : Subscriber) : (setActive e s).email = s.email := by
  unfold setActive
  split <;> rfl

theorem updId_token (i : Nat) (s : Subscriber) : (updId i s).token = s.token := by
  unfold updId
  split <;> rfl

theorem updId_id (i : Nat) (s : Subscriber) : (updId i s).id = s.id := by
  unfold updId
  split <;> rfl

theorem updId_idem (i : Nat) (s : Subscriber) : updId i (updId i s) = updId i s := by
  unfold updId
  by_cases h : s.id == i
  · rw [if_pos h, if_pos h]
  · rw [if_neg h, if_neg h]

theorem frame_setActive (e : String) (s : Subscriber) : frame s (setActive e s) := by
  unfold setActive
  split <;> exact ⟨rfl, rfl, rfl, rfl, rfl⟩

theorem frame_updId (i : Nat) (s : Subscriber) : frame s (updId i s) := by
  unfold updId
  split <;> exact ⟨rfl, rfl, rfl, rfl, rfl⟩

theorem forall₂_frame_map (db : List Subscriber) (f : Subscriber → Subscriber)
    (hf : ∀ s, frame s (f s)) : List.Forall₂ frame db (db.map f) := by
  induction db with
  | nil => constructor
  | cons s db ih => exact List.Forall₂.cons (hf s) ih

theorem forall₂_frame_refl (db : List Subscriber) : List.Forall₂ frame db db :=
  List.forall₂_same.2 fun s _ => ⟨rfl, rfl, rfl, rfl, rfl⟩

theorem countEmail_map (f : Subscriber → Subscriber) (hf : ∀ s, (f s).email = s.email)
    (db : List Subscriber) (x : String) : countEmail (db.map f) x = countEmail db x := by
  induction db with
  | nil => rfl
  | cons s db ih =>
    simp only [countEmail, List.map_cons, List.countP_cons] at ih ⊢
    rw [ih, hf]

theorem any_email_map (f : Subscriber → Subscriber) (hf : ∀ s, (f s).email = s.email)
    (db : List Subscriber) (x : String) :
    (db.map f).any (fun s => s.email == x) = db.any (fun s => s.email == x) := by
  induction db with
  | nil => rfl
  | cons s db ih => simp only [List.map_cons, List.any_cons, ih, hf]

theorem countEmail_append (db l : List Subscriber) (x : String) :
    countEmail (db ++ l) x = countEmail db x + countEmail l x :=
  List.countP_append _ _ _

theorem countEmail_eq_zero (db : List Subscriber) (x : String)
    (h : ∀ s ∈ db, ¬s.email = x) : countEmail db x = 0 :=
  List.countP_eq_zero.2 (by intro s hs; simpa using h s hs)

theorem countEmail_pos (db : List Subscriber) (x : String)
    (h : ∃ s ∈ db, s.email = x) : 0 < countEmail db x :=
  List.countP_pos_iff.2 (by obtain ⟨s, hs, he⟩ := h; exact ⟨s, hs, by simpa using he⟩)

theorem status_setActive_mem (db : List Subscriber) (norm : String) :
    ∀ s ∈ db.map (setActive norm), s.email = norm → s.status = "active" := by
  intro s hs heq
  obtain ⟨x, hx, rfl⟩ := List.mem_map.1 hs
  unfold setActive at heq ⊢
  by_cases h : x.email == norm
  · rw [if_pos h]
  · rw [if_neg h] at heq ⊢
    exact absurd (by simpa using heq) h

theorem upsert_present (db : List Subscriber) (e : String) (n : Option String) (t : String)
    (i now : Nat) (hne : pyNorm e ≠ "")
    (hp : db.any (fun s => s.email == pyNorm e) = true) :
    upsert_subscriber db e n t i now = ⟨db.map (setActive (pyNorm e)), true, none⟩ := by
  unfold upsert_subscriber
  rw [if_neg hne]
  have hg : db.any (fun s => s.email == pyNorm e || s.token == t) = true := by
    rw [List.any_eq_true] at hp ⊢
    obtain ⟨s, hs, h⟩ := hp
    exact ⟨s, hs, by simp_all⟩
  rw [if_pos hg]

theorem upsert_absent (db : List Subscriber) (e : String) (n : Option String) (t : String)
    (i now : Nat) (hne : pyNorm e ≠ "")
    (ha : db.any (fun s => s.email == pyNorm e) = false)
    (ht : ∀ s ∈ db, s.token ≠ t) :
    upsert_subscriber db e n t i now =
      ⟨(db ++ [(⟨i, pyNorm e, n, t, "active", now⟩ : Subscriber)]).map (setActive (pyNorm e)),
        true, none⟩ := by
  unfold upsert_subscriber
  rw [if_neg hne]
  have hg : ¬db.any (fun s => s.email == pyNorm e || s.token == t) = true := by
    rw [List.any_eq_false] at ha
    rw [List.any_eq_true]
    rintro ⟨s, hs, h⟩
    rcases Bool.or_eq_true_iff.1 h with h | h
    · exact ha s hs h
    · exact ht s hs (by simpa using h)
  rw [if_neg hg]

theorem unsubscribe_not_found (db : List Subscriber) (t : String)
    (h : ∀ s ∈ db, s.token ≠ t) : unsubscribe_by_token db t = (db, false) := by
  unfold unsubscribe_by_token
  have hf : db.find? (fun s => s.token == t) = none := by
    rw [List.find?_eq_none]
    intro s hs
    simp [h s hs]
  rw [hf]

/-! ### The claims -/

/-- Claim C7: recipient-text resolution splits the raw text on comma and
semicolon, trims and lowercases each piece, discards empties, and
deduplicates into a set; in particular resolving
`"a@x.com, A@X.com ; b@y.com"` yields exactly the two-element set
of `a@x.com` and `b@y.com`. -/
theorem claim_C7 (raw : String) :
    (∀ e, e ∈ resolveManual raw ↔
      ∃ part ∈ pySplit ',' (pyReplaceSemi raw),
        pyStrip part ≠ "" ∧ e = pyLower (pyStrip part)) ∧
    (resolveManual raw).Nodup ∧
    resolveManual "a@x.com, A@X.com ; b@y.com" = ["a@x.com", "b@y.com"] :=
  ⟨fun e => mem_resolveManual raw e, nodup_resolveManual raw, by decide⟩

/-- Claim C5: if the transport fails (raises) on every recipient, the dispatch
loop still attempts every recipient, returns normally (it is a total function
whose per-recipient `try/except` records failures), and yields `sent_ok`
empty and `sent_fail` pairing every recipient with a failure reason. -/
theorem claim_C5 (cfg : Config) (transport : String → Except String Unit)
    (token_of : String → String) (recipients : List String)
    (hfail : ∀ e ∈ recipients, ∃ m, transport e = Except.error m) :
    (dispatch cfg transport token_of recipients).sent_ok = [] ∧
    (dispatch cfg transport token_of recipients).sent_fail.map Prod.fst = recipients ∧
    (dispatch cfg transport token_of recipients).attempts.map SendAttempt.to_email
      = recipients := by
  have h : ∀ e ∈ recipients, ∃ m, send_one_email cfg transport e = Except.error m := by
    intro e he
    obtain ⟨m, hm⟩ := hfail e he
    unfold send_one_email
    split
    · exact ⟨m, hm⟩
    · exact ⟨_, rfl⟩
  obtain ⟨h1, h2⟩ := dispatch_all_error cfg transport token_of recipients h
  refine ⟨h1, h2, ?_⟩
  rw [dispatch_attempts, List.map_map]
  have hcmp : SendAttempt.to_email ∘ mkAttempt cfg token_of = id := funext fun e => rfl
  rw [hcmp, List.map_id]

/-- Claim C5 witness: a transport that always fails, three recipients. -/
theorem claim_C5_witness :
    (dispatch ⟨"smtp.x", 587, "u", "p", "s@x", "https://b.example"⟩
        (fun _ => Except.error "SMTP connect failed") (fun _ => "tok")
        ["a@x.com", "b@y.com", "c@z.com"]).sent_ok = [] ∧
    (dispatch ⟨"smtp.x", 587, "u", "p", "s@x", "https://b.example"⟩
        (fun _ => Except.error "SMTP connect failed") (fun _ => "tok")
        ["a@x.com", "b@y.com", "c@z.com"]).sent_fail.map Prod.fst
      = ["a@x.com", "b@y.com", "c@z.com"] ∧
    (dispatch ⟨"smtp.x", 587, "u", "p", "s@x", "https://b.example"⟩
        (fun _ => Except.error "SMTP connect failed") (fun _ => "tok")
        ["a@x.com", "b@y.com", "c@z.com"]).attempts.map SendAttempt.to_email
      = ["a@x.com", "b@y.com", "c@z.com"] :=
  claim_C5 _ _ _ _ (fun e _ => ⟨"SMTP connect failed", rfl⟩)

/-- Claim C4: with the configuration checks passed, in `mode=test` with a
non-blank test address the resolved recipient set is exactly the singleton of
the lowercased (stripped) test address, for every recipients text and
audience flag; with a blank test address the request fails validation with a
flashed error (no transport call is made: the result is this redirect for
every transport). -/
theorem claim_C4 (cfg : Config) (db : List Subscriber) (raw : String) (use_aud : Bool)
    (test : String) (transport : String → Except String Unit) (fresh : String → String)
    (h1 : cfg.SMTP_PASS ≠ "") (h2 : cfg.SENDER_EMAIL ≠ "") :
    (pyStrip test ≠ "" →
      ∃ r, send_route cfg db raw use_aud "test" test transport fresh = .report r ∧
        r.attempts.map SendAttempt.to_email = [pyLower (pyStrip test)]) ∧
    (pyStrip test = "" →
      send_route cfg db raw use_aud "test" test transport fresh =
        .flashError "Masukkan alamat 'Test to' dulu.") := by
  constructor
  · intro hts
    simp only [send_route]
    rw [if_neg h1, if_neg h2, if_neg (fun hc => hts (And.right hc)), if_pos trivial,
      if_neg (by simp : ¬([pyLower (pyStrip test)] = ([] : List String)))]
    refine ⟨_, rfl, ?_⟩
    rw [dispatch_attempts]
    have hs : sortStrings [pyLower (pyStrip test)] = [pyLower (pyStrip test)] := rfl
    rw [hs]
    simp [mkAttempt]
  · intro hts
    simp only [send_route]
    rw [if_neg h1, if_neg h2, if_pos ⟨trivial, hts⟩]

/-- Claim C4 witness: a blank and a non-blank test address at a concrete
configuration. -/
theorem claim_C4_witness :
    (∃ r, send_route ⟨"smtp.x", 587, "u", "p", "s@x", "https://b.example"⟩ []
        "other@y.com" true "test" " A@X.com " (fun _ => Except.ok ()) (fun _ => "F")
        = .report r ∧ r.attempts.map SendAttempt.to_email = ["a@x.com"]) ∧
    send_route ⟨"smtp.x", 587, "u", "p", "s@x", "https://b.example"⟩ []
        "other@y.com" true "test" "  " (fun _ => Except.ok ()) (fun _ => "F")
      = .flashError "Masukkan alamat 'Test to' dulu." :=
  ⟨(claim_C4 _ [] "other@y.com" true " A@X.com " _ _ (by decide) (by decide)).1 (by decide),
   (claim_C4 _ [] "other@y.com" true "  " _ _ (by decide) (by decide)).2 (by decide)⟩

/-- Claim C1, amended: with an active subscriber `bob@x.com` (token `T1`)
stored, dispatching with `recipients="bob@x.com"` and `use_audience=false`
performs exactly one send attempt to `bob@x.com`, but its unsubscribe link
carries the freshly minted per-send token, not the stored token: the token
map is built from the audience rows only, and the audience is loaded only
when `use_audience` is on.  The table `db` is arbitrary here — the attempt
never consults it. -/
theorem claim_C1 (cfg : Config) (db : List Subscriber)
    (transport : String → Except String Unit) (fresh : String → String)
    (h1 : cfg.SMTP_PASS ≠ "") (h2 : cfg.SENDER_EMAIL ≠ "") :
    ∃ r, send_route cfg db "bob@x.com" false "send" "" transport fresh = .report r ∧
      r.attempts = [⟨"bob@x.com", fresh "bob@x.com",
        build_unsub_link cfg.BASE_URL (fresh "bob@x.com")⟩] := by
  simp only [send_route]
  rw [if_neg h1, if_neg h2,
    if_neg (by decide : ¬(("send" : String) = "test" ∧ pyStrip "" = "")),
    if_neg (by decide : ¬(("send" : String) = "test"))]
  have haud : audienceOf db false = [] := rfl
  rw [haud]
  rw [if_neg (by decide :
    ¬(List.foldl (fun acc row => addRecipient acc (pyLower row.email))
      (resolveManual "bob@x.com") ([] : List Subscriber) = []))]
  refine ⟨_, rfl, ?_⟩
  rw [dispatch_attempts]
  rfl

/-- Claim C1 witness: the concrete scenario of the claim, with stored token
`T1`; the single attempt uses the minted token `FRESH`. -/
theorem claim_C1_witness :
    ∃ r, send_route ⟨"smtp.x", 587, "u", "p", "s@x", "https://b.example"⟩
        [⟨1, "bob@x.com", none, "T1", "active", 0⟩] "bob@x.com" false "send" ""
        (fun _ => Except.ok ()) (fun _ => "FRESH") = .report r ∧
      r.attempts = [⟨"bob@x.com", "FRESH", "https://b.example/unsubscribe?token=FRESH"⟩] :=
  claim_C1 _ _ _ _ (by decide) (by decide)

/-- Claim C1 counterexample, refuting the claim as stated: in the claim's
scenario (store holds active `bob@x.com` with token `T1`,
`recipients="bob@x.com"`, `use_audience=false`) the one attempt's
unsubscribe link carries the minted token `FRESH`, and `FRESH` is not `T1`:
the stored token is not reused. -/
theorem claim_C1_counterexample :
    send_route ⟨"smtp.x", 587, "u", "p", "s@x", "https://b.example"⟩
        [⟨1, "bob@x.com", none, "T1", "active", 0⟩] "bob@x.com" false "send" ""
        (fun _ => Except.ok ()) (fun _ => "FRESH")
      = .report ⟨["bob@x.com"], [],
          [⟨"bob@x.com", "FRESH", "https://b.example/unsubscribe?token=FRESH"⟩]⟩ ∧
    ("FRESH" : String) ≠ "T1" ∧
    build_unsub_link "https://b.example" "FRESH" ≠ build_unsub_link "https://b.example" "T1" := by
  refine ⟨by decide, by decide, by decide⟩

/-- Claim C6, amended: a missing `SMTP_PASS` or `SENDER_EMAIL` rejects the
dispatch wholesale before any send attempt (a flashed error, no report, no
per-recipient failure entries, independent of the transport); but a missing
`SMTP_HOST`, `SMTP_PORT` or `SMTP_USER` is only detected inside
`send_one_email`, per recipient: zero messages are sent, and every attempted
recipient receives a failure entry. -/
theorem claim_C6 (cfg : Config) (db : List Subscriber) (raw : String) (use_aud : Bool)
    (mode test : String) (transport : String → Except String Unit) (fresh : String → String) :
    (cfg.SMTP_PASS = "" →
      send_route cfg db raw use_aud mode test transport fresh =
        .flashError "Gagal: SMTP_PASS (password email) belum diset.") ∧
    (cfg.SMTP_PASS ≠ "" → cfg.SENDER_EMAIL = "" →
      send_route cfg db raw use_aud mode test transport fresh =
        .flashError "Gagal: SENDER_EMAIL belum diset.") ∧
    ((cfg.SMTP_HOST = "" ∨ cfg.SMTP_PORT = 0 ∨ cfg.SMTP_USER = "") →
      ∀ r, send_route cfg db raw use_aud mode test transport fresh = .report r →
        r.sent_ok = [] ∧ r.sent_fail.map Prod.fst = r.attempts.map SendAttempt.to_email) := by
  refine ⟨?_, ?_, ?_⟩
  · intro h
    simp only [send_route]
    rw [if_pos h]
  · intro h1 h2
    simp only [send_route]
    rw [if_neg h1, if_pos h2]
  · intro hhole r hr
    obtain ⟨rs, rfl⟩ := send_route_report cfg db raw use_aud mode test transport fresh r hr
    have herr : ∀ e ∈ rs, ∃ m, send_one_email cfg transport e = Except.error m := by
      intro e _
      unfold send_one_email
      rw [if_neg ?hneg]
      · exact ⟨_, rfl⟩
      case hneg =>
        rintro ⟨hh, hp, hu, _⟩
        rcases hhole with h | h | h
        · exact hh h
        · exact hp h
        · exact hu h
    obtain ⟨h1, h2⟩ := dispatch_all_error cfg transport _ rs herr
    refine ⟨h1, ?_⟩
    rw [h2, dispatch_attempts, List.map_map]
    have hcmp : SendAttempt.to_email ∘
        mkAttempt cfg (fun e => (token_map_lookup (audienceOf db use_aud) e).getD (fresh e)) = id :=
      funext fun e => rfl
    rw [hcmp, List.map_id]

/-- Claim C6 witness: `SMTP_PASS` missing rejects the request wholesale. -/
theorem claim_C6_witness :
    send_route ⟨"smtp.x", 587, "u", "", "s@x", "https://b.example"⟩ [] "a@x.com"
        false "send" "" (fun _ => Except.ok ()) (fun _ => "F")
      = .flashError "Gagal: SMTP_PASS (password email) belum diset." :=
  (claim_C6 _ [] "a@x.com" false "send" "" _ _).1 rfl

/-- Claim C2: for every email non-empty after trimming and lowercasing, with
the table invariant that the email occurs at most once and a fresh first
token, `upsert(e)` followed by `upsert(e)` again succeeds both times and
leaves exactly one subscriber row with that normalized email, with status
`active` (the second call is a status reset, not a duplicate insert). -/
theorem claim_C2 (db : List Subscriber) (e : String) (n1 n2 : Option String)
    (t1 t2 : String) (i1 i2 now1 now2 : Nat) (hne : pyNorm e ≠ "")
    (huniq : countEmail db (pyNorm e) ≤ 1) (ht1 : ∀ s ∈ db, s.token ≠ t1) :
    (upsert_subscriber db e n1 t1 i1 now1).ok = true ∧
    (upsert_subscriber (upsert_subscriber db e n1 t1 i1 now1).db e n2 t2 i2 now2).ok = true ∧
    countEmail (upsert_subscriber (upsert_subscriber db e n1 t1 i1 now1).db e n2 t2 i2 now2).db
      (pyNorm e) = 1 ∧
    ∀ s ∈ (upsert_subscriber (upsert_subscriber db e n1 t1 i1 now1).db e n2 t2 i2 now2).db,
      s.email = pyNorm e → s.status = "active" := by
  by_cases hp : db.any (fun s => s.email == pyNorm e) = true
  · have h1 := upsert_present db e n1 t1 i1 now1 hne hp
    have hp2 : ((db.map (setActive (pyNorm e))).any (fun s => s.email == pyNorm e)) = true := by
      rw [any_email_map (setActive (pyNorm e)) (setActive_email (pyNorm e)) db (pyNorm e)]
      exact hp
    have h2 := upsert_present (db.map (setActive (pyNorm e))) e n2 t2 i2 now2 hne hp2
    simp only [h1]
    simp only [h2]
    refine ⟨trivial, trivial, ?_, ?_⟩
    · rw [countEmail_map _ (setActive_email _), countEmail_map _ (setActive_email _)]
      have hlow : 0 < countEmail db (pyNorm e) := by
        rw [List.any_eq_true] at hp
        obtain ⟨s, hs, hb⟩ := hp
        exact countEmail_pos db _ ⟨s, hs, by simpa using hb⟩
      omega
    · exact status_setActive_mem _ _
  · have ha : db.any (fun s => s.email == pyNorm e) = false := by
      simpa using hp
    have h1 := upsert_absent db e n1 t1 i1 now1 hne ha ht1
    have hp2 : (((db ++ [(⟨i1, pyNorm e, n1, t1, "active", now1⟩ : Subscriber)]).map
        (setActive (pyNorm e))).any (fun s => s.email == pyNorm e)) = true := by
      rw [any_email_map _ (setActive_email _)]
      simp
    have h2 := upsert_present _ e n2 t2 i2 now2 hne hp2
    simp only [h1]
    simp only [h2]
    refine ⟨trivial, trivial, ?_, ?_⟩
    · rw [countEmail_map _ (setActive_email _), countEmail_map _ (setActive_email _),
        countEmail_append]
      have hz : countEmail db (pyNorm e) = 0 := by
        refine countEmail_eq_zero db _ ?_
        intro s hs
        have := List.any_eq_false.1 ha s hs
        simpa using this
      rw [hz]
      simp [countEmail]
    · exact status_setActive_mem _ _

/-- Claim C2 witness: subscribing `A@x.com` twice to an empty table. -/
theorem claim_C2_witness :
    (upsert_subscriber [] " A@x.com" none "T1" 1 0).ok = true ∧
    (upsert_subscriber (upsert_subscriber [] " A@x.com" none "T1" 1 0).db
      " A@x.com" none "T2" 2 1).ok = true ∧
    countEmail (upsert_subscriber (upsert_subscriber [] " A@x.com" none "T1" 1 0).db
      " A@x.com" none "T2" 2 1).db (pyNorm " A@x.com") = 1 ∧
    ∀ s ∈ (upsert_subscriber (upsert_subscriber [] " A@x.com" none "T1" 1 0).db
      " A@x.com" none "T2" 2 1).db, s.email = pyNorm " A@x.com" → s.status = "active" :=
  claim_C2 [] " A@x.com" none none "T1" "T2" 1 2 0 1 (by decide) (by decide)
    (fun s hs => absurd hs (List.not_mem_nil s))

/-- Claim C3: with the table invariants (distinct row ids and distinct
tokens), unsubscribing with an unknown token returns "not found" and mutates
nothing; unsubscribing with the token of a stored subscriber returns "found"
and sets exactly that subscriber's status to `unsubscribed`, and a second
call with the same token again returns "found" and changes nothing
(idempotent). -/
theorem claim_C3 (db : List Subscriber) (t : String)
    (hid : (db.map Subscriber.id).Nodup) (htok : (db.map Subscriber.token).Nodup) :
    ((∀ s ∈ db, s.token ≠ t) → unsubscribe_by_token db t = (db, false)) ∧
    (∀ s ∈ db, s.token = t →
      (unsubscribe_by_token db t).2 = true ∧
      (unsubscribe_by_token db t).1 =
        db.map (fun x => if x.token = t then { x with status := "unsubscribed" } else x) ∧
      (unsubscribe_by_token (unsubscribe_by_token db t).1 t).2 = true ∧
      (unsubscribe_by_token (unsubscribe_by_token db t).1 t).1 = (unsubscribe_by_token db t).1) := by
  refine ⟨unsubscribe_not_found db t, ?_⟩
  intro s hs hst
  have hfind : db.find? (fun x => x.token == t) = some s := by
    cases hf : db.find? (fun x => x.token == t) with
    | none =>
      rw [List.find?_eq_none] at hf
      exact absurd (by simp [hst]) (hf s hs)
    | some r =>
      have hr1 := List.find?_some hf
      have hr2 : r ∈ db := List.mem_of_find?_eq_some hf
      have hrs : r = s :=
        List.inj_on_of_nodup_map htok hr2 hs (by rw [hst]; simpa using hr1)
      rw [hrs]
  have hres : unsubscribe_by_token db t = (db.map (updId s.id), true) := by
    unfold unsubscribe_by_token
    rw [hfind]
  have hpt : ∀ x ∈ db,
      updId s.id x = (if x.token = t then { x with status := "unsubscribed" } else x) := by
    intro x hx
    by_cases hxi : x.id = s.id
    · have hxs : x = s := List.inj_on_of_nodup_map hid hx hs hxi
      subst hxs
      have hxt : x.token = t := hst
      unfold updId
      rw [if_pos (by simp), if_pos hxt]
    · have hxt : x.token ≠ t := by
        intro hxt
        exact hxi (congrArg Subscriber.id
          (List.inj_on_of_nodup_map htok hx hs (hxt.trans hst.symm)))
      unfold updId
      rw [if_neg (by simpa using hxi), if_neg hxt]
  have hfind2 : (db.map (updId s.id)).find? (fun x => x.token == t) = some (updId s.id s) := by
    rw [List.find?_map]
    have hcmp : ((fun x : Subscriber => x.token == t) ∘ updId s.id) =
        (fun x : Subscriber => x.token == t) :=
      funext fun x => by simp [Function.comp, updId_token]
    rw [hcmp, hfind]
    rfl
  have hres2 : unsubscribe_by_token (db.map (updId s.id)) t =
      ((db.map (updId s.id)).map (updId s.id), true) := by
    unfold unsubscribe_by_token
    rw [hfind2]
    show (List.map (updId (updId s.id s).id) (List.map (updId s.id) db), true) = _
    rw [updId_id]
  refine ⟨?_, ?_, ?_, ?_⟩
  · rw [hres]
  · rw [hres]
    exact List.map_congr_left hpt
  · rw [hres]
    show (unsubscribe_by_token (db.map (updId s.id)) t).2 = true
    rw [hres2]
  · rw [hres]
    show (unsubscribe_by_token (db.map (updId s.id)) t).1 = db.map (updId s.id)
    rw [hres2]
    show (db.map (updId s.id)).map (updId s.id) = db.map (updId s.id)
    rw [List.map_map]
    exact List.map_congr_left fun x _ => updId_idem s.id x

/-- Claim C3 witness: a two-row table; unknown token found nowhere, stored
token `T1` unsubscribes its row idempotently. -/
theorem claim_C3_witness :
    (unsubscribe_by_token
        [⟨1, "a@x.com", none, "T1", "active", 0⟩, ⟨2, "b@y.com", none, "T2", "active", 0⟩]
        "T1").2 = true ∧
    (unsubscribe_by_token
        [⟨1, "a@x.com", none, "T1", "active", 0⟩, ⟨2, "b@y.com", none, "T2", "active", 0⟩]
        "T1").1 =
      [⟨1, "a@x.com", none, "T1", "active", 0⟩,
        ⟨2, "b@y.com", none, "T2", "active", 0⟩].map
        (fun x => if x.token = "T1" then { x with status := "unsubscribed" } else x) :=
  ⟨((claim_C3
      [⟨1, "a@x.com", none, "T1", "active", 0⟩, ⟨2, "b@y.com", none, "T2", "active", 0⟩]
      "T1" (by decide) (by decide)).2
      ⟨1, "a@x.com", none, "T1", "active", 0⟩ (by decide) rfl).1,
   ((claim_C3
      [⟨1, "a@x.com", none, "T1", "active", 0⟩, ⟨2, "b@y.com", none, "T2", "active", 0⟩]
      "T1" (by decide) (by decide)).2
      ⟨1, "a@x.com", none, "T1", "active", 0⟩ (by decide) rfl).2.1⟩

/-- Claim C8, amended: the image inliner returns an inline payload exactly
when the preliminary HEAD-equivalent check yields status exactly 200 (not any
2xx) with a content type beginning with `image/` and the body fetch yields
status exactly 200 with a non-empty body; in every other case (other status,
non-image content type, raised network error or timeout on either request) it
returns no payload — it is a total function, so it never raises. -/
theorem claim_C8 (guess_ext : String → Option String)
    (headResp getResp : Except String HttpResponse) :
    (∃ p, fetch_image_for_inline guess_ext headResp getResp = some p) ↔
      ∃ h, headResp = Except.ok h ∧ h.status_code = 200 ∧
        strStarts "image/" h.content_type = true ∧
        ∃ g, getResp = Except.ok g ∧ g.status_code = 200 ∧ g.content ≠ [] := by
  unfold fetch_image_for_inline
  cases headResp with
  | error e => simp
  | ok head =>
    dsimp only
    by_cases hc : head.status_code = 200 ∧ strStarts "image/" head.content_type
    · rw [if_pos hc]
      cases getResp with
      | error e =>
        simp
      | ok g =>
        dsimp only
        by_cases hg : g.status_code = 200 ∧ g.content ≠ []
        · rw [if_pos hg]
          constructor
          · intro _
            exact ⟨head, rfl, hc.1, hc.2, g, rfl, hg.1, hg.2⟩
          · intro _
            exact ⟨_, rfl⟩
        · rw [if_neg hg]
          constructor
          · rintro ⟨p, hp⟩
            exact Option.noConfusion hp
          · rintro ⟨h, hh, h200, him, g2, hg2, hg200, hgc⟩
            injection hg2 with hg2
            subst hg2
            exact absurd ⟨hg200, hgc⟩ hg
    · rw [if_neg hc]
      constructor
      · rintro ⟨p, hp⟩
        exact Option.noConfusion hp
      · rintro ⟨h, hh, h200, him, g2, hg2, hg200, hgc⟩
        injection hh with hh
        subst hh
        exact absurd ⟨h200, him⟩ hc

/-- Claim C8 counterexample, refuting the claim as stated: a HEAD response
with status 201 — a 2xx status — and content type `image/png`, followed by a
fully successful body fetch, yields no inline payload: the code requires
status exactly 200.  (At status 200 the same scenario does produce the
payload.) -/
theorem claim_C8_counterexample :
    fetch_image_for_inline (fun _ => some ".png") (Except.ok ⟨201, "image/png", [65]⟩)
        (Except.ok ⟨200, "image/png", [65]⟩) = none ∧
    (200 ≤ 201 ∧ 201 < 300) ∧ strStarts "image/" "image/png" = true ∧
    fetch_image_for_inline (fun _ => some ".png") (Except.ok ⟨200, "image/png", [65]⟩)
        (Except.ok ⟨200, "image/png", [65]⟩) = some ⟨"QQ==", "image/png", "hero.png"⟩ := by
  refine ⟨by decide, by decide, by decide, by decide⟩

/-- Claim C9: re-submitting an email that is already stored, and unsubscribing
by any token, each leave every row's id, email, name, token and created_at
unchanged (row for row), modifying at most the status column: tokens are
never rotated by the exposed operations. -/
theorem claim_C9 (db : List Subscriber) (e : String) (n : Option String) (t : String)
    (i now : Nat) (hmem : ∃ s ∈ db, s.email = pyNorm e) :
    List.Forall₂ frame db (upsert_subscriber db e n t i now).db ∧
    ∀ tok, List.Forall₂ frame db (unsubscribe_by_token db tok).1 := by
  constructor
  · by_cases hne : pyNorm e = ""
    · unfold upsert_subscriber
      rw [if_pos hne]
      exact forall₂_frame_refl db
    · have hp : db.any (fun s => s.email == pyNorm e) = true := by
        rw [List.any_eq_true]
        obtain ⟨s, hs, he⟩ := hmem
        exact ⟨s, hs, by simpa using he⟩
      rw [upsert_present db e n t i now hne hp]
      exact forall₂_frame_map db _ (frame_setActive _)
  · intro tok
    unfold unsubscribe_by_token
    cases hf : db.find? (fun s => s.token == tok) with
    | none => exact forall₂_frame_refl db
    | some r => exact forall₂_frame_map db _ (frame_updId _)

/-- Claim C9 witness: re-subscribing a stored address with a different fresh
token, then unsubscribing, preserves everything but status. -/
theorem claim_C9_witness :
    List.Forall₂ frame [⟨1, "a@x.com", none, "T1", "unsubscribed", 0⟩]
      (upsert_subscriber [⟨1, "a@x.com", none, "T1", "unsubscribed", 0⟩]
        "a@x.com" (some "Al") "T9" 7 9).db ∧
    List.Forall₂ frame [⟨1, "a@x.com", none, "T1", "unsubscribed", 0⟩]
      (unsubscribe_by_token [⟨1, "a@x.com", none, "T1", "unsubscribed", 0⟩] "T1").1 :=
  ⟨(claim_C9 [⟨1, "a@x.com", none, "T1", "unsubscribed", 0⟩] "a@x.com" (some "Al") "T9" 7 9
      ⟨⟨1, "a@x.com", none, "T1", "unsubscribed", 0⟩, by decide, rfl⟩).1,
   (claim_C9 [⟨1, "a@x.com", none, "T1", "unsubscribed", 0⟩] "a@x.com" (some "Al") "T9" 7 9
      ⟨⟨1, "a@x.com", none, "T1", "unsubscribed", 0⟩, by decide, rfl⟩).2 "T1"⟩

/-- Claim C10: a manually entered recipient whose stored record is
`unsubscribed` is still in the resolved recipient set and receives a send
attempt in `mode=send` (for any `use_audience`); the unsubscribed status only
excludes the row from the audience listing (`get_active_emails`), never from
manually supplied recipients. -/
theorem claim_C10 (cfg : Config) (db : List Subscriber) (raw : String) (use_aud : Bool)
    (test : String) (transport : String → Except String Unit) (fresh : String → String)
    (s : Subscriber) (h1 : cfg.SMTP_PASS ≠ "") (h2 : cfg.SENDER_EMAIL ≠ "")
    (hs : s ∈ db) (hstat : s.status = "unsubscribed") (hm : s.email ∈ resolveManual raw) :
    (∃ r, send_route cfg db raw use_aud "send" test transport fresh = .report r ∧
      s.email ∈ r.attempts.map SendAttempt.to_email) ∧
    s ∉ get_active_emails db := by
  constructor
  · have hmem1 : s.email ∈ (audienceOf db use_aud).foldl
        (fun acc row => addRecipient acc (pyLower row.email)) (resolveManual raw) :=
      mem_foldl_addRecipient (fun row => pyLower row.email) _ _ _ hm
    simp only [send_route]
    rw [if_neg h1, if_neg h2,
      if_neg (fun hc => absurd hc.1 (by decide : ¬(("send" : String) = "test"))),
      if_neg (by decide : ¬(("send" : String) = "test")),
      if_neg (fun h0 => by rw [h0] at hmem1; exact absurd hmem1 (List.not_mem_nil _))]
    refine ⟨_, rfl, ?_⟩
    rw [dispatch_attempts, List.map_map]
    have hcmp : SendAttempt.to_email ∘
        mkAttempt cfg (fun e => (token_map_lookup (audienceOf db use_aud) e).getD (fresh e)) = id :=
      funext fun e => rfl
    rw [hcmp, List.map_id, mem_sortStrings]
    exact hmem1
  · intro hactive
    unfold get_active_emails at hactive
    rw [List.mem_reverse, List.mem_filter] at hactive
    have : s.status = "active" := by simpa using hactive.2
    rw [hstat] at this
    exact absurd this (by decide)

/-- Claim C10 witness: the stored record for `u@x.com` is unsubscribed, yet a
manual dispatch to `u@x.com` in send mode attempts it; the audience listing
excludes it. -/
theorem claim_C10_witness :
    (∃ r, send_route ⟨"smtp.x", 587, "u", "p", "s@x", "https://b.example"⟩
        [⟨1, "u@x.com", none, "T1", "unsubscribed", 0⟩] "u@x.com" true "send" ""
        (fun _ => Except.ok ()) (fun _ => "F") = .report r ∧
      "u@x.com" ∈ r.attempts.map SendAttempt.to_email) ∧
    (⟨1, "u@x.com", none, "T1", "unsubscribed", 0⟩ : Subscriber) ∉
      get_active_emails [⟨1, "u@x.com", none, "T1", "unsubscribed", 0⟩] :=
  claim_C10 _ [⟨1, "u@x.com", none, "T1", "unsubscribed", 0⟩] "u@x.com" true ""
    _ _ ⟨1, "u@x.com", none, "T1", "unsubscribed", 0⟩ (by decide) (by decide)
    (by decide) rfl (by decide)

/-- Claim C6 counterexample, refuting the claim as stated: with the transport
credential `SMTP_HOST` missing (and `SMTP_PASS`, `SENDER_EMAIL` present) the
dispatch is not rejected wholesale: the loop runs and produces a
per-recipient failure entry for the recipient, contradicting "no
per-recipient failure entries are produced". -/
theorem claim_C6_counterexample :
    send_route ⟨"", 0, "", "p", "s@x", "https://b.example"⟩ [] "a@x.com" false "send" ""
        (fun _ => Except.ok ()) (fun _ => "F")
      = .report ⟨[],
          [("a@x.com", "Konfigurasi SMTP tidak lengkap: isi SMTP_HOST, SMTP_PORT, SMTP_USER, SMTP_PASS.")],
          [⟨"a@x.com", "F", "https://b.example/unsubscribe?token=F"⟩]⟩ := by
  decide

end BulkEmail
